import Mathlib

/-!
Shallow embedding of the cortex-io chat relay (`index.js`): per-process
session state, the Supabase row store (tables `puchchat` and
`puchchat_users`), the six tools (`connect`, `disconnect`, `send`, `fetch`,
`help`, `connectedUsers`), and the realtime subscription status handler.

Store transport failures are modelled by an explicit failure schedule
threaded through the world state: each store call consumes the head of the
schedule; `some e` makes that call fail with error `e`, `none` lets it
succeed against the in-memory table state.
-/

namespace Puchchat

/-- Error object returned by a failed Supabase query (`error.code`,
`error.message`). -/
structure StoreError where
  code : String
  msg : String
deriving Repr, DecidableEq

/-- Row of the `puchchat` messages table: auto-increment `id`, `username`,
`message` text, and `created_at` (modelled as a store-assigned counter). -/
structure Message where
  id : Nat
  username : String
  message : String
  created_at : Nat
deriving Repr, DecidableEq

/-- Row of the `puchchat_users` presence table. -/
structure UserRow where
  username : String
  is_connected : Bool
deriving Repr, DecidableEq

/-- The persistent store: both tables plus the store-side counters that
assign `id` and `created_at` on message insert. -/
structure Store where
  messages : List Message
  users : List UserRow
  nextId : Nat
  nextTime : Nat
deriving Repr, DecidableEq

/-- Per-process session state (`const session = { username: null,
last_message_id: 0 }`, index.js lines 58-61). -/
structure Session where
  username : Option String
  last_message_id : Nat
deriving Repr, DecidableEq

/-- World state threaded through every tool call: the store, the session,
and the schedule of injected store failures. -/
structure World where
  store : Store
  session : Session
  failures : List (Option StoreError)
deriving Repr, DecidableEq

/-- JavaScript `String.prototype.trim`: drop whitespace from both ends
(modelled over the character list so the kernel can evaluate it). -/
def jsTrim (s : String) : String :=
  ⟨((s.data.dropWhile Char.isWhitespace).reverse.dropWhile
      Char.isWhitespace).reverse⟩

/-- JavaScript `String.prototype.toLowerCase` (character-wise). -/
def jsToLower (s : String) : String :=
  ⟨s.data.map Char.toLower⟩

/-- Consume the next entry of the failure schedule; an empty schedule means
the store call succeeds. -/
def takeFailure (w : World) : Option StoreError × World :=
  match w.failures with
  | [] => (none, w)
  | f :: rest => (f, { w with failures := rest })

/-- Supabase `.from("puchchat_users").select("*").eq("username", uname)`. -/
def selectUserRows (s : Store) (uname : String) : List UserRow :=
  s.users.filter (fun r => r.username = uname)

/-- Supabase `.from("puchchat_users").update({is_connected: b}).eq("username", uname)`. -/
def updateUserConnected (s : Store) (uname : String) (b : Bool) : Store :=
  { s with users := s.users.map (fun r =>
      if r.username = uname then { r with is_connected := b } else r) }

/-- Supabase `.from("puchchat_users").insert({username, is_connected: b})`. -/
def insertUserRow (s : Store) (uname : String) (b : Bool) : Store :=
  { s with users := s.users ++ [⟨uname, b⟩] }

/-- Supabase `.select("is_connected").eq("username", uname).single()`:
succeeds exactly when one row matches, returning its `is_connected`. -/
def selectSingleConnected (s : Store) (uname : String) : Option Bool :=
  match selectUserRows s uname with
  | [r] => some r.is_connected
  | _ => none

/-- Supabase `.from("puchchat").insert({username, message})`: the store
assigns `id := nextId` and the `created_at` timestamp. -/
def insertMessageRow (s : Store) (uname text : String) : Store :=
  { s with
    messages := s.messages ++ [⟨s.nextId, uname, text, s.nextTime⟩]
    nextId := s.nextId + 1
    nextTime := s.nextTime + 1 }

/-- Insert a message into a list sorted by ascending id (helper for the
store's `order("id", ascending)` semantics). -/
def insertById (m : Message) : List Message → List Message
  | [] => [m]
  | x :: xs => if m.id ≤ x.id then m :: x :: xs else x :: insertById m xs

/-- Sort a list of messages by ascending id. -/
def sortById : List Message → List Message
  | [] => []
  | x :: xs => insertById x (sortById xs)

/-- Supabase `.from("puchchat").select("*").gt("id", lastId).order("id",
{ascending: true})`. -/
def selectMessagesGt (s : Store) (lastId : Nat) : List Message :=
  sortById (s.messages.filter (fun m => lastId < m.id))

/-- Supabase `.from("puchchat_users").select("username").eq("is_connected",
true)`, projected to usernames. -/
def selectConnectedUsernames (s : Store) : List String :=
  (s.users.filter (fun r => r.is_connected)).map (fun r => r.username)

/-- Authentication token holder (`class SimpleAuthProvider`, lines 141-156). -/
structure SimpleAuthProvider where
  token : String
deriving Repr, DecidableEq

/-- Result of a successful verification (`{clientId, scopes}`). -/
structure AuthResult where
  clientId : String
  scopes : List String
deriving Repr, DecidableEq

/-- `SimpleAuthProvider.verify` (lines 147-155): exact match against the
static token. -/
def SimpleAuthProvider.verify (ap : SimpleAuthProvider) (providedToken : String) :
    Option AuthResult :=
  if providedToken = ap.token then some ⟨"puch-client", ["*"]⟩ else none

/-- `username.trim().toLowerCase()` (line 169). -/
def normalizeUsername (u : String) : String :=
  jsToLower (jsTrim u)

/-- The `toISOString`-based date formatting of `fetch` (lines 334-335),
modelled on the counter timestamp. -/
def formattedDate (t : Nat) : String :=
  toString t

/-- One line of `fetch` output: `[date] username: message` (line 336). -/
def formatMessage (m : Message) : String :=
  "[" ++ formattedDate m.created_at ++ "] " ++ m.username ++ ": " ++ m.message

/-- Tail of `connect` (lines 203-204): reset the cursor and report success. -/
def connectDone (uname : String) (w : World) : String × World :=
  ("✅ Connected as '" ++ uname ++ "'.",
   { w with session := { w.session with last_message_id := 0 } })

/-- Branching body of `connect` after the user select (lines 182-201):
update the existing row, or insert a fresh one. -/
def connectUpsert (uname : String) (userData : List UserRow) (w : World) :
    String × World :=
  if userData.length > 0 then
    match takeFailure w with
    | (some e, w) =>
      ("❌ Error updating connection status for '" ++ uname ++ "': " ++ e.msg, w)
    | (none, w) =>
      connectDone uname { w with store := updateUserConnected w.store uname true }
  else
    match takeFailure w with
    | (some e, w) =>
      ("❌ Error connecting as new user '" ++ uname ++ "': " ++ e.msg, w)
    | (none, w) =>
      connectDone uname { w with store := insertUserRow w.store uname true }

/-- The `connect` tool (lines 161-209). Note: `session.username` is set to
the normalized username before the first store call (line 170). A select
error with code `PGRST116` is treated as "no rows found". -/
def connect (ap : SimpleAuthProvider) (username authToken : String) (w : World) :
    String × World :=
  match ap.verify authToken with
  | none => ("❌ Authentication failed.", w)
  | some _ =>
    let uname := normalizeUsername username
    let w := { w with session := { w.session with username := some uname } }
    match takeFailure w with
    | (some e, w) =>
      if e.code = "PGRST116" then
        connectUpsert uname [] w
      else
        ("❌ Error fetching user data for '" ++ uname ++ "': " ++ e.msg, w)
    | (none, w) =>
      connectUpsert uname (selectUserRows w.store uname) w

/-- The `disconnect` tool (lines 211-241). -/
def disconnect (ap : SimpleAuthProvider) (authToken : String) (w : World) :
    String × World :=
  match ap.verify authToken with
  | none => ("❌ Authentication failed.", w)
  | some _ =>
    match w.session.username with
    | none => ("⚠️ You are not connected.", w)
    | some uname =>
      match takeFailure w with
      | (some e, w) =>
        ("❌ Error disconnecting '" ++ uname ++ "': " ++ e.msg, w)
      | (none, w) =>
        ("🚪 User '" ++ uname ++ "' disconnected from chat.",
         { w with
           store := updateUserConnected w.store uname false
           session := ⟨none, 0⟩ })

/-- The `send` tool (lines 243-285): gate, require a session, re-verify the
`is_connected` flag in the store, then insert the trimmed message. -/
def send (ap : SimpleAuthProvider) (message authToken : String) (w : World) :
    String × World :=
  match ap.verify authToken with
  | none => ("❌ Authentication failed.", w)
  | some _ =>
    match w.session.username with
    | none => ("⚠️ You must /connect before sending messages.", w)
    | some uname =>
      match takeFailure w with
      | (some _, w) => ("⚠️ You are not connected. Use /connect first.", w)
      | (none, w) =>
        match selectSingleConnected w.store uname with
        | none => ("⚠️ You are not connected. Use /connect first.", w)
        | some false => ("⚠️ You are not connected. Use /connect first.", w)
        | some true =>
          match takeFailure w with
          | (some e, w) => ("❌ Error sending message: " ++ e.msg, w)
          | (none, w) =>
            ("📨 Message sent: " ++ jsTrim message,
             { w with store := insertMessageRow w.store uname (jsTrim message) })

/-- The `fetch` tool (lines 287-343): gate, require a session, re-verify
`is_connected`, select messages with id above the cursor, advance the
cursor to the last returned id, and format the block. -/
def fetch (ap : SimpleAuthProvider) (authToken : String) (w : World) :
    String × World :=
  match ap.verify authToken with
  | none => ("❌ Authentication failed.", w)
  | some _ =>
    match w.session.username with
    | none => ("⚠️ You must /connect before fetching messages.", w)
    | some uname =>
      match takeFailure w with
      | (some _, w) => ("⚠️ You are not connected. Use /connect first.", w)
      | (none, w) =>
        match selectSingleConnected w.store uname with
        | none => ("⚠️ You are not connected. Use /connect first.", w)
        | some false => ("⚠️ You are not connected. Use /connect first.", w)
        | some true =>
          let lastId := w.session.last_message_id
          match takeFailure w with
          | (some e, w) => ("❌ Error fetching messages: " ++ e.msg, w)
          | (none, w) =>
            match selectMessagesGt w.store lastId with
            | [] => ("🕒 No new messages.", w)
            | m :: rest =>
              let lastMsg := (m :: rest).getLast (List.cons_ne_nil m rest)
              ("💬 New messages:\n" ++
                 String.intercalate "\n" ((m :: rest).map formatMessage),
               { w with session :=
                   { w.session with last_message_id := lastMsg.id } })

/-- The `help` tool (lines 345-361). -/
def help (ap : SimpleAuthProvider) (authToken : String) (w : World) :
    String × World :=
  match ap.verify authToken with
  | none => ("❌ Authentication failed.", w)
  | some _ =>
    ("Commands:\n" ++
     "/connect <username> - Connect to chat\n" ++
     "/disconnect - Disconnect from chat\n" ++
     "/send <message> - Send a message (only when connected)\n" ++
     "/fetch - Fetch new messages\n" ++
     "/help - Show this help\n" ++
     "/connected_users - Show who is connected\n", w)

/-- The `connectedUsers` tool (lines 363-394). -/
def connectedUsers (ap : SimpleAuthProvider) (authToken : String) (w : World) :
    String × World :=
  match ap.verify authToken with
  | none => ("❌ Authentication failed.", w)
  | some _ =>
    match takeFailure w with
    | (some e, w) => ("❌ Error fetching connected users: " ++ e.msg, w)
    | (none, w) =>
      let users := selectConnectedUsernames w.store
      let count := users.length
      if count = 0 then ("No users are currently connected.", w)
      else
        ("Connected users (" ++ toString count ++ "):\n" ++
           String.intercalate "\n" users, w)

/-- Channel lifecycle statuses delivered to the subscription callback. -/
inductive ChannelStatus
  | SUBSCRIBED
  | CHANNEL_ERROR
  | TIMED_OUT
  | CLOSED
deriving Repr, DecidableEq

/-- Observable effect of one status-callback invocation: the log line it
emits and the reconnect delay it schedules, if any. -/
structure ListenerEffect where
  logLine : String
  scheduledReconnectMs : Option Nat
deriving Repr, DecidableEq

/-- The `.subscribe((status) => ...)` handler of `startRealtimeListener`
(lines 92-103): only `CLOSED` schedules a re-subscribe, after 5000 ms. -/
def subscribeCallback : ChannelStatus → ListenerEffect
  | .SUBSCRIBED =>
    ⟨"Supabase Realtime: Subscribed to puchchat_messages channel.", none⟩
  | .CHANNEL_ERROR =>
    ⟨"Supabase Realtime: Channel error.", none⟩
  | .TIMED_OUT =>
    ⟨"Supabase Realtime: Subscription timed out.", none⟩
  | .CLOSED =>
    ⟨"Supabase Realtime: Channel closed. Attempting to re-subscribe.",
     some 5000⟩

/-- Retry delay of the `catch` branch of `startRealtimeListener`
(line 115). -/
def startFailureRetryMs : Nat := 5000

/-- A sequence of `send` calls with the same token, threaded through the
world state. -/
def postMany (ap : SimpleAuthProvider) (texts : List String) (w : World) : World :=
  texts.foldl (fun acc t => (send ap t ap.token acc).2) w

/-- The messages a sequence of posts appends: user `u`, trimmed texts, ids
counting up from `i`, timestamps counting up from `time`. -/
def postedMessages (u : String) : List String → Nat → Nat → List Message
  | [], _, _ => []
  | t :: ts, i, time => ⟨i, u, jsTrim t, time⟩ :: postedMessages u ts (i + 1) (time + 1)

/-- Invariant of the messages table: ids strictly increase along the list
and stay below the store's next id. -/
def MsgInv (s : Store) : Prop :=
  List.Pairwise (fun a b => a.id < b.id) s.messages ∧
    ∀ m ∈ s.messages, m.id < s.nextId

/-- Invariant of the users table: at most one row per username. -/
def UsersUnique (s : Store) : Prop :=
  List.Pairwise (fun a b => a.username ≠ b.username) s.users

/-! ### Basic lemmas about the store primitives -/

theorem verify_self (ap : SimpleAuthProvider) :
    ap.verify ap.token = some ⟨"puch-client", ["*"]⟩ := by
  simp [SimpleAuthProvider.verify]

theorem verify_ne (ap : SimpleAuthProvider) (tok : String) (h : tok ≠ ap.token) :
    ap.verify tok = none := by
  simp [SimpleAuthProvider.verify, h]

theorem insertById_of_forall_lt (x : Message) (l : List Message)
    (h : ∀ y ∈ l, x.id < y.id) : insertById x l = x :: l := by
  cases l with
  | nil => rfl
  | cons y ys =>
    have hy : x.id < y.id := h y (List.mem_cons_self y ys)
    simp [insertById, Nat.le_of_lt hy]

theorem sortById_eq_of_sorted (l : List Message)
    (h : List.Pairwise (fun a b => a.id < b.id) l) : sortById l = l := by
  induction l with
  | nil => rfl
  | cons x xs ih =>
    rcases List.pairwise_cons.mp h with ⟨hx, hxs⟩
    simp only [sortById, ih hxs]
    exact insertById_of_forall_lt x xs hx

theorem filter_username_nil_or_singleton (uname : String) (l : List UserRow)
    (h : List.Pairwise (fun a b => a.username ≠ b.username) l) :
    l.filter (fun r => r.username = uname) = [] ∨
      ∃ b, l.filter (fun r => r.username = uname) = [⟨uname, b⟩] := by
  induction l with
  | nil => exact Or.inl rfl
  | cons r rs ih =>
    rcases List.pairwise_cons.mp h with ⟨hr, hrs⟩
    by_cases hu : r.username = uname
    · subst hu
      right
      refine ⟨r.is_connected, ?_⟩
      have hnil : rs.filter (fun x => decide (x.username = r.username)) = [] := by
        apply List.filter_eq_nil_iff.mpr
        intro x hx
        simp only [decide_eq_true_eq]
        intro hxu
        exact hr x hx hxu.symm
      simp [List.filter_cons, hnil]
    · rcases ih hrs with h0 | ⟨b, hb⟩
      · left; simpa [List.filter_cons, hu] using h0
      · right; exact ⟨b, by simpa [List.filter_cons, hu] using hb⟩

theorem selectUserRows_nil_or_singleton (s : Store) (uname : String)
    (h : UsersUnique s) :
    selectUserRows s uname = [] ∨
      ∃ b, selectUserRows s uname = [⟨uname, b⟩] :=
  filter_username_nil_or_singleton uname s.users h

theorem send_success_spec (ap : SimpleAuthProvider) (t u : String) (w : World)
    (hu : w.session.username = some u)
    (hrow : selectUserRows w.store u = [⟨u, true⟩])
    (hf : w.failures = []) :
    send ap t ap.token w =
      ("📨 Message sent: " ++ jsTrim t,
       { w with store := insertMessageRow w.store u (jsTrim t) }) := by
  have htake : takeFailure w = (none, w) := by simp [takeFailure, hf]
  have hsingle : selectSingleConnected w.store u = some true := by
    simp [selectSingleConnected, hrow]
  simp [send, verify_self, hu, htake, hsingle]

/-! ### Posting sequences and the messages-table invariant -/

theorem postedMessages_mem_id (u : String) (ts : List String) :
    ∀ i time, ∀ m ∈ postedMessages u ts i time,
      i ≤ m.id ∧ m.id < i + ts.length := by
  induction ts with
  | nil => intro i time m hm; simp [postedMessages] at hm
  | cons t ts ih =>
    intro i time m hm
    simp only [postedMessages, List.mem_cons] at hm
    rcases hm with rfl | hm
    · exact ⟨Nat.le_refl _, by simp⟩
    · rcases ih (i + 1) (time + 1) m hm with ⟨h1, h2⟩
      exact ⟨Nat.le_of_succ_le h1, by simp only [List.length_cons]; omega⟩

theorem postedMessages_pairwise (u : String) (ts : List String) :
    ∀ i time, List.Pairwise (fun a b => a.id < b.id)
      (postedMessages u ts i time) := by
  induction ts with
  | nil => intro i time; simp [postedMessages]
  | cons t ts ih =>
    intro i time
    simp only [postedMessages, List.pairwise_cons]
    refine ⟨?_, ih (i + 1) (time + 1)⟩
    intro m hm
    exact Nat.lt_of_succ_le (postedMessages_mem_id u ts (i + 1) (time + 1) m hm).1

theorem postMany_spec (ap : SimpleAuthProvider) (u : String) (ts : List String)
    (w : World)
    (hu : w.session.username = some u)
    (hrow : selectUserRows w.store u = [⟨u, true⟩])
    (hf : w.failures = []) :
    postMany ap ts w =
      { w with store :=
          { messages := w.store.messages ++
              postedMessages u ts w.store.nextId w.store.nextTime
            users := w.store.users
            nextId := w.store.nextId + ts.length
            nextTime := w.store.nextTime + ts.length } } := by
  induction ts generalizing w with
  | nil =>
    simp [postMany, postedMessages]
  | cons t ts ih =>
    have hsend := send_success_spec ap t u w hu hrow hf
    have hstep : postMany ap (t :: ts) w =
        postMany ap ts { w with store := insertMessageRow w.store u (jsTrim t) } := by
      show postMany ap ts ((send ap t ap.token w).2) = _
      rw [hsend]
    rw [hstep, ih]
    · simp only [insertMessageRow, postedMessages, List.append_assoc,
        List.singleton_append, List.length_cons]
      have h1 : w.store.nextId + 1 + ts.length = w.store.nextId + (ts.length + 1) := by
        omega
      have h2 : w.store.nextTime + 1 + ts.length =
          w.store.nextTime + (ts.length + 1) := by omega
      rw [h1, h2]
    · exact hu
    · exact hrow
    · exact hf

theorem msgInv_posted (s : Store) (u : String) (ts : List String)
    (h : MsgInv s) :
    MsgInv
      { messages := s.messages ++ postedMessages u ts s.nextId s.nextTime
        users := s.users
        nextId := s.nextId + ts.length
        nextTime := s.nextTime + ts.length } := by
  rcases h with ⟨hpw, hbound⟩
  constructor
  · rw [List.pairwise_append]
    refine ⟨hpw, postedMessages_pairwise u ts s.nextId s.nextTime, ?_⟩
    intro a ha b hb
    exact Nat.lt_of_lt_of_le (hbound a ha)
      (postedMessages_mem_id u ts s.nextId s.nextTime b hb).1
  · intro m hm
    rcases List.mem_append.mp hm with hm | hm
    · exact Nat.lt_of_lt_of_le (hbound m hm) (Nat.le_add_right _ _)
    · exact (postedMessages_mem_id u ts s.nextId s.nextTime m hm).2

theorem selectMessagesGt_eq_filter (s : Store) (lastId : Nat)
    (h : List.Pairwise (fun a b => a.id < b.id) s.messages) :
    selectMessagesGt s lastId =
      s.messages.filter (fun m => lastId < m.id) := by
  unfold selectMessagesGt
  exact sortById_eq_of_sorted _ (h.filter _)

theorem pairwise_le_getLast (l : List Message) (hne : l ≠ [])
    (h : List.Pairwise (fun a b => a.id < b.id) l) :
    ∀ m ∈ l, m.id ≤ (l.getLast hne).id := by
  induction l with
  | nil => exact absurd rfl hne
  | cons x xs ih =>
    rcases List.pairwise_cons.mp h with ⟨hx, hxs⟩
    intro m hm
    cases xs with
    | nil =>
      rcases List.mem_singleton.mp hm with rfl
      exact Nat.le_refl _
    | cons y ys =>
      rw [List.getLast_cons (List.cons_ne_nil y ys)]
      rcases List.mem_cons.mp hm with rfl | hm
      · exact Nat.le_of_lt (Nat.lt_of_lt_of_le
          (hx y (List.mem_cons_self y ys))
          (ih (List.cons_ne_nil y ys) hxs y (List.mem_cons_self y ys)))
      · exact ih (List.cons_ne_nil y ys) hxs m hm

/-! ### The effect of connect on the users table -/

theorem filter_update_self (n : String) (b : Bool) (l : List UserRow) :
    (l.map (fun r => if r.username = n then { r with is_connected := b } else r)).filter
        (fun r => r.username = n) =
      (l.filter (fun r => r.username = n)).map
        (fun r => { r with is_connected := b }) := by
  induction l with
  | nil => rfl
  | cons r rs ih =>
    by_cases h : r.username = n
    · simp [List.filter_cons, h, ih]
    · simp [List.filter_cons, h, ih]

theorem filter_update_other (n : String) (b : Bool) (a : String) (hne : a ≠ n)
    (l : List UserRow) :
    (l.map (fun r => if r.username = n then { r with is_connected := b } else r)).filter
        (fun r => r.username = a) =
      l.filter (fun r => r.username = a) := by
  induction l with
  | nil => rfl
  | cons r rs ih =>
    by_cases h : r.username = n
    · have ha : ¬r.username = a := by
        rw [h]; exact fun hh => hne hh.symm
      simp [List.filter_cons, h, ha, ih, Ne.symm hne]
    · simp only [List.map_cons, if_neg h, List.filter_cons, ih]

theorem selectUserRows_update_self (s : Store) (n : String) (b : Bool) :
    selectUserRows (updateUserConnected s n b) n =
      (selectUserRows s n).map (fun r => { r with is_connected := b }) :=
  filter_update_self n b s.users

theorem selectUserRows_update_other (s : Store) (n : String) (b : Bool)
    (a : String) (hne : a ≠ n) :
    selectUserRows (updateUserConnected s n b) a = selectUserRows s a :=
  filter_update_other n b a hne s.users

theorem selectUserRows_insert_self (s : Store) (n : String) (b : Bool) :
    selectUserRows (insertUserRow s n b) n = selectUserRows s n ++ [⟨n, b⟩] := by
  simp [selectUserRows, insertUserRow, List.filter_append]

theorem selectUserRows_insert_other (s : Store) (n : String) (b : Bool)
    (a : String) (hne : a ≠ n) :
    selectUserRows (insertUserRow s n b) a = selectUserRows s a := by
  simp [selectUserRows, insertUserRow, List.filter_append, Ne.symm hne]

theorem connectUpsert_success_props (n : String) (w : World)
    (hf : w.failures = []) (huniq : UsersUnique w.store) :
    (connectUpsert n (selectUserRows w.store n) w).1 =
      "✅ Connected as '" ++ n ++ "'." ∧
    ((connectUpsert n (selectUserRows w.store n) w).2).session =
      ⟨w.session.username, 0⟩ ∧
    selectUserRows ((connectUpsert n (selectUserRows w.store n) w).2).store n =
      [⟨n, true⟩] := by
  have htake : takeFailure w = (none, w) := by simp [takeFailure, hf]
  rcases selectUserRows_nil_or_singleton w.store n huniq with hnil | ⟨b, hb⟩
  · refine ⟨?_, ?_, ?_⟩ <;>
      simp [connectUpsert, hnil, htake, connectDone,
        selectUserRows_insert_self]
  · refine ⟨?_, ?_, ?_⟩ <;>
      simp [connectUpsert, hb, htake, connectDone, selectUserRows_update_self]

theorem connectUpsert_preserves_other (n : String) (ud : List UserRow)
    (w : World) (a : String) (hne : a ≠ n) :
    selectUserRows ((connectUpsert n ud w).2).store a =
      selectUserRows w.store a := by
  unfold connectUpsert connectDone
  by_cases hl : ud.length > 0 <;>
    rcases hfl : w.failures with _ | ⟨f, rest⟩ <;>
    simp only [hl, if_true, if_false, takeFailure, hfl] <;>
    first
      | (cases f <;>
          simp [selectUserRows_update_other _ _ _ _ hne,
            selectUserRows_insert_other _ _ _ _ hne])
      | simp [selectUserRows_update_other _ _ _ _ hne,
          selectUserRows_insert_other _ _ _ _ hne]

theorem connect_success_props (ap : SimpleAuthProvider) (uname : String)
    (w : World) (huniq : UsersUnique w.store) (hf : w.failures = []) :
    (connect ap uname ap.token w).1 =
      "✅ Connected as '" ++ normalizeUsername uname ++ "'." ∧
    ((connect ap uname ap.token w).2).session =
      ⟨some (normalizeUsername uname), 0⟩ ∧
    selectUserRows ((connect ap uname ap.token w).2).store
        (normalizeUsername uname) = [⟨normalizeUsername uname, true⟩] := by
  have hw1 : connect ap uname ap.token w =
      connectUpsert (normalizeUsername uname)
        (selectUserRows w.store (normalizeUsername uname))
        { w with session :=
            { w.session with username := some (normalizeUsername uname) } } := by
    simp [connect, verify_self, takeFailure, hf]
  have h := connectUpsert_success_props (normalizeUsername uname)
    { w with session :=
        { w.session with username := some (normalizeUsername uname) } }
    hf huniq
  rw [hw1]
  exact h

/-! ### Claim theorems -/

/-- C4 counterexample: the status callback schedules no reconnect on
`CHANNEL_ERROR` or `TIMED_OUT`, contradicting the claim that every one of
CLOSED, ERROR and TIMED_OUT starts a fresh attempt after 5 seconds. -/
theorem realtime_error_timeout_no_reconnect_cex :
    (subscribeCallback ChannelStatus.CHANNEL_ERROR).scheduledReconnectMs = none ∧
    (subscribeCallback ChannelStatus.TIMED_OUT).scheduledReconnectMs = none :=
  ⟨rfl, rfl⟩

/-- C4 (amended): only a `CLOSED` status schedules a fresh subscription
attempt, after the fixed 5000 ms delay; `CHANNEL_ERROR`, `TIMED_OUT` and
`SUBSCRIBED` schedule none; a thrown startup error also retries after
5000 ms. -/
theorem realtime_reconnect_only_on_closed :
    (subscribeCallback ChannelStatus.CLOSED).scheduledReconnectMs = some 5000 ∧
    (subscribeCallback ChannelStatus.CHANNEL_ERROR).scheduledReconnectMs = none ∧
    (subscribeCallback ChannelStatus.TIMED_OUT).scheduledReconnectMs = none ∧
    (subscribeCallback ChannelStatus.SUBSCRIBED).scheduledReconnectMs = none ∧
    startFailureRetryMs = 5000 :=
  ⟨rfl, rfl, rfl, rfl, rfl⟩

/-- C5: with a credential that does not match the static secret, every one
of the six commands returns the authentication-failure string and leaves
the whole world (store, session, failure schedule) untouched. -/
theorem unauthorized_commands_no_effect (ap : SimpleAuthProvider)
    (tok uname text : String) (w : World) (h : tok ≠ ap.token) :
    connect ap uname tok w = ("❌ Authentication failed.", w) ∧
    disconnect ap tok w = ("❌ Authentication failed.", w) ∧
    send ap text tok w = ("❌ Authentication failed.", w) ∧
    fetch ap tok w = ("❌ Authentication failed.", w) ∧
    help ap tok w = ("❌ Authentication failed.", w) ∧
    connectedUsers ap tok w = ("❌ Authentication failed.", w) := by
  have hv := verify_ne ap tok h
  exact ⟨by simp [connect, hv], by simp [disconnect, hv], by simp [send, hv],
    by simp [fetch, hv], by simp [help, hv], by simp [connectedUsers, hv]⟩

/-- C5 witness at a concrete world and mismatching token. -/
theorem unauthorized_commands_no_effect_witness :
    connect ⟨"secret"⟩ "alice" "wrong" ⟨⟨[], [], 1, 0⟩, ⟨none, 0⟩, []⟩ =
      ("❌ Authentication failed.", ⟨⟨[], [], 1, 0⟩, ⟨none, 0⟩, []⟩) ∧
    disconnect ⟨"secret"⟩ "wrong" ⟨⟨[], [], 1, 0⟩, ⟨none, 0⟩, []⟩ =
      ("❌ Authentication failed.", ⟨⟨[], [], 1, 0⟩, ⟨none, 0⟩, []⟩) ∧
    send ⟨"secret"⟩ "hi" "wrong" ⟨⟨[], [], 1, 0⟩, ⟨none, 0⟩, []⟩ =
      ("❌ Authentication failed.", ⟨⟨[], [], 1, 0⟩, ⟨none, 0⟩, []⟩) ∧
    fetch ⟨"secret"⟩ "wrong" ⟨⟨[], [], 1, 0⟩, ⟨none, 0⟩, []⟩ =
      ("❌ Authentication failed.", ⟨⟨[], [], 1, 0⟩, ⟨none, 0⟩, []⟩) ∧
    help ⟨"secret"⟩ "wrong" ⟨⟨[], [], 1, 0⟩, ⟨none, 0⟩, []⟩ =
      ("❌ Authentication failed.", ⟨⟨[], [], 1, 0⟩, ⟨none, 0⟩, []⟩) ∧
    connectedUsers ⟨"secret"⟩ "wrong" ⟨⟨[], [], 1, 0⟩, ⟨none, 0⟩, []⟩ =
      ("❌ Authentication failed.", ⟨⟨[], [], 1, 0⟩, ⟨none, 0⟩, []⟩) :=
  unauthorized_commands_no_effect ⟨"secret"⟩ "wrong" "alice" "hi"
    ⟨⟨[], [], 1, 0⟩, ⟨none, 0⟩, []⟩ (by decide)

/-- C7: after a successful `disconnect`, an immediate `send` returns the
must-connect warning (not an error) and inserts no message row. -/
theorem leave_then_post_warns (ap : SimpleAuthProvider) (u text : String)
    (w : World) (hu : w.session.username = some u) (hf : w.failures = []) :
    (disconnect ap ap.token w).1 =
      "🚪 User '" ++ u ++ "' disconnected from chat." ∧
    (send ap text ap.token (disconnect ap ap.token w).2).1 =
      "⚠️ You must /connect before sending messages." ∧
    ((send ap text ap.token (disconnect ap ap.token w).2).2).store.messages =
      w.store.messages := by
  have htake : takeFailure w = (none, w) := by simp [takeFailure, hf]
  have hd : disconnect ap ap.token w =
      ("🚪 User '" ++ u ++ "' disconnected from chat.",
       { w with
         store := updateUserConnected w.store u false
         session := ⟨none, 0⟩ }) := by
    simp [disconnect, verify_self, hu, htake]
  refine ⟨by rw [hd], ?_, ?_⟩ <;>
    rw [hd] <;> simp [send, verify_self, updateUserConnected]

/-- C7 witness at a concrete connected world. -/
theorem leave_then_post_warns_witness :
    (disconnect ⟨"s"⟩ "s" ⟨⟨[], [⟨"alice", true⟩], 1, 0⟩, ⟨some "alice", 0⟩, []⟩).1 =
      "🚪 User 'alice' disconnected from chat." ∧
    (send ⟨"s"⟩ "x" "s"
        (disconnect ⟨"s"⟩ "s"
          ⟨⟨[], [⟨"alice", true⟩], 1, 0⟩, ⟨some "alice", 0⟩, []⟩).2).1 =
      "⚠️ You must /connect before sending messages." ∧
    ((send ⟨"s"⟩ "x" "s"
        (disconnect ⟨"s"⟩ "s"
          ⟨⟨[], [⟨"alice", true⟩], 1, 0⟩, ⟨some "alice", 0⟩, []⟩).2).2).store.messages =
      [] :=
  leave_then_post_warns ⟨"s"⟩ "alice" "x"
    ⟨⟨[], [⟨"alice", true⟩], 1, 0⟩, ⟨some "alice", 0⟩, []⟩ rfl rfl

/-- C3 counterexample: `send` performs no emptiness check. A text that is
empty after trimming is inserted as an empty message row and confirmed,
instead of being rejected before any store call. -/
theorem send_empty_text_inserted_cex :
    (send ⟨"s"⟩ "   " "s"
        ⟨⟨[], [⟨"alice", true⟩], 1, 0⟩, ⟨some "alice", 0⟩, []⟩).1 =
      "📨 Message sent: " ∧
    ((send ⟨"s"⟩ "   " "s"
        ⟨⟨[], [⟨"alice", true⟩], 1, 0⟩, ⟨some "alice", 0⟩, []⟩).2).store.messages =
      [⟨1, "alice", "", 0⟩] :=
  ⟨rfl, rfl⟩

/-- C3 (amended): `send` does not validate emptiness. For every text,
empty after trimming or not, once the session is joined, store-verified
connected and the store calls succeed, the trimmed text is inserted as a
new row carrying the store-assigned id (`nextId`), and the confirmation
echoes the trimmed text. -/
theorem send_inserts_trimmed_without_empty_check (ap : SimpleAuthProvider)
    (t u : String) (w : World)
    (hu : w.session.username = some u)
    (hrow : selectUserRows w.store u = [⟨u, true⟩])
    (hf : w.failures = []) :
    send ap t ap.token w =
      ("📨 Message sent: " ++ jsTrim t,
       { w with store := insertMessageRow w.store u (jsTrim t) }) ∧
    (insertMessageRow w.store u (jsTrim t)).messages =
      w.store.messages ++ [⟨w.store.nextId, u, jsTrim t, w.store.nextTime⟩] :=
  ⟨send_success_spec ap t u w hu hrow hf, rfl⟩

/-- C3 amended witness: a whitespace-only text at a concrete world. -/
theorem send_inserts_trimmed_witness :
    send ⟨"s"⟩ " " "s" ⟨⟨[], [⟨"alice", true⟩], 1, 0⟩, ⟨some "alice", 0⟩, []⟩ =
      ("📨 Message sent: " ++ jsTrim " ",
       { store := insertMessageRow ⟨[], [⟨"alice", true⟩], 1, 0⟩ "alice" (jsTrim " ")
         session := ⟨some "alice", 0⟩
         failures := [] }) ∧
    (insertMessageRow ⟨[], [⟨"alice", true⟩], 1, 0⟩ "alice" (jsTrim " ")).messages =
      [] ++ [⟨1, "alice", jsTrim " ", 0⟩] :=
  send_inserts_trimmed_without_empty_check ⟨"s"⟩ " " "alice"
    ⟨⟨[], [⟨"alice", true⟩], 1, 0⟩, ⟨some "alice", 0⟩, []⟩ rfl rfl rfl

/-- C2 counterexample: a store failure during `connect` does not leave the
Session in its prior state. With session user alice and a failing user
select, `connect` for Bob aborts with the failure string but the session's
username has already been overwritten with "bob". -/
theorem connect_store_failure_mutates_session_cex :
    (connect ⟨"s"⟩ "Bob" "s"
        ⟨⟨[], [⟨"alice", true⟩], 1, 0⟩, ⟨some "alice", 5⟩,
         [some ⟨"500", "boom"⟩]⟩).1 =
      "❌ Error fetching user data for 'bob': boom" ∧
    ((connect ⟨"s"⟩ "Bob" "s"
        ⟨⟨[], [⟨"alice", true⟩], 1, 0⟩, ⟨some "alice", 5⟩,
         [some ⟨"500", "boom"⟩]⟩).2).session.username = some "bob" ∧
    ((connect ⟨"s"⟩ "Bob" "s"
        ⟨⟨[], [⟨"alice", true⟩], 1, 0⟩, ⟨some "alice", 5⟩,
         [some ⟨"500", "boom"⟩]⟩).2).session ≠ (⟨some "alice", 5⟩ : Session) := by
  refine ⟨by decide, by decide, by decide⟩

/-- C8: a successful join echoes the normalized (trimmed, lower-cased)
username, stores it in the session, resets the cursor to 0, and leaves
exactly one user row keyed by the normalized username with
`is_connected = true`. -/
theorem join_success_normalized (ap : SimpleAuthProvider) (uname : String)
    (w : World) (huniq : UsersUnique w.store) (hf : w.failures = []) :
    (connect ap uname ap.token w).1 =
      "✅ Connected as '" ++ normalizeUsername uname ++ "'." ∧
    ((connect ap uname ap.token w).2).session.username =
      some (normalizeUsername uname) ∧
    ((connect ap uname ap.token w).2).session.last_message_id = 0 ∧
    selectUserRows ((connect ap uname ap.token w).2).store
        (normalizeUsername uname) = [⟨normalizeUsername uname, true⟩] := by
  rcases connect_success_props ap uname w huniq hf with ⟨h1, h2, h3⟩
  exact ⟨h1, by rw [h2], by rw [h2], h3⟩

/-- C8 witness: `join("Alice")` on an empty store. -/
theorem join_success_normalized_witness :
    (connect ⟨"s"⟩ "Alice" "s" ⟨⟨[], [], 1, 0⟩, ⟨none, 0⟩, []⟩).1 =
      "✅ Connected as 'alice'." ∧
    ((connect ⟨"s"⟩ "Alice" "s" ⟨⟨[], [], 1, 0⟩, ⟨none, 0⟩, []⟩).2).session.username =
      some "alice" ∧
    ((connect ⟨"s"⟩ "Alice" "s"
        ⟨⟨[], [], 1, 0⟩, ⟨none, 0⟩, []⟩).2).session.last_message_id = 0 ∧
    selectUserRows ((connect ⟨"s"⟩ "Alice" "s"
        ⟨⟨[], [], 1, 0⟩, ⟨none, 0⟩, []⟩).2).store "alice" = [⟨"alice", true⟩] :=
  join_success_normalized ⟨"s"⟩ "Alice" ⟨⟨[], [], 1, 0⟩, ⟨none, 0⟩, []⟩
    List.Pairwise.nil rfl

/-- C10: a whitespace-only username is not rejected by `connect`: it is
normalized to the empty string, which becomes the session identity and the
key of an `is_connected = true` user row. -/
theorem join_whitespace_username_accepted (ap : SimpleAuthProvider)
    (uname : String) (w : World) (hws : jsTrim uname = "")
    (huniq : UsersUnique w.store) (hf : w.failures = []) :
    (connect ap uname ap.token w).1 = "✅ Connected as ''." ∧
    ((connect ap uname ap.token w).2).session.username = some "" ∧
    selectUserRows ((connect ap uname ap.token w).2).store "" =
      [⟨"", true⟩] := by
  have hn : normalizeUsername uname = "" := by
    unfold normalizeUsername
    rw [hws]
    rfl
  rcases connect_success_props ap uname w huniq hf with ⟨h1, h2, h3⟩
  rw [hn] at h1 h2 h3
  exact ⟨h1.trans rfl, by rw [h2], h3⟩

/-- C10 witness: a three-space username on an empty store. -/
theorem join_whitespace_username_accepted_witness :
    (connect ⟨"s"⟩ "   " "s" ⟨⟨[], [], 1, 0⟩, ⟨none, 0⟩, []⟩).1 =
      "✅ Connected as ''." ∧
    ((connect ⟨"s"⟩ "   " "s" ⟨⟨[], [], 1, 0⟩, ⟨none, 0⟩, []⟩).2).session.username =
      some "" ∧
    selectUserRows ((connect ⟨"s"⟩ "   " "s"
        ⟨⟨[], [], 1, 0⟩, ⟨none, 0⟩, []⟩).2).store "" = [⟨"", true⟩] :=
  join_whitespace_username_accepted ⟨"s"⟩ "   " ⟨⟨[], [], 1, 0⟩, ⟨none, 0⟩, []⟩
    rfl List.Pairwise.nil rfl

/-- C9: joining as a different user B leaves user A's rows in the store
untouched, whatever the token and the failure schedule. -/
theorem join_other_preserves_user_row (ap : SimpleAuthProvider)
    (b tok a : String) (w : World)
    (ha : w.session.username = some a)
    (hne : a ≠ normalizeUsername b) :
    selectUserRows ((connect ap b tok w).2).store a =
      selectUserRows w.store a := by
  unfold connect
  cases hv : ap.verify tok with
  | none => rfl
  | some r =>
    rcases hfl : w.failures with _ | ⟨f, rest⟩
    · simp only [takeFailure, hfl]
      exact connectUpsert_preserves_other _ _ _ a hne
    · simp only [takeFailure, hfl]
      cases f with
      | none => exact connectUpsert_preserves_other _ _ _ a hne
      | some e =>
        by_cases hc : e.code = "PGRST116"
        · simp only [hc, if_true]
          exact connectUpsert_preserves_other _ _ _ a hne
        · simp only [hc, if_false]

/-- C1: with the session joined, store-verified connected and no store
failures, any sequence of posts followed by a drain returns exactly the
messages whose id exceeds the drain-time cursor — the pre-existing unseen
ones followed by the just-posted ones, none omitted, none duplicated — in
strictly ascending id order, each echoed as a formatted line. -/
theorem drain_after_posts_exact (ap : SimpleAuthProvider) (u : String)
    (ts : List String) (w w' : World) (drained : List Message)
    (hu : w.session.username = some u)
    (hrow : selectUserRows w.store u = [⟨u, true⟩])
    (hf : w.failures = [])
    (hinv : MsgInv w.store)
    (hcur : w.session.last_message_id < w.store.nextId)
    (hw' : w' = postMany ap ts w)
    (hd : drained = w'.store.messages.filter
        (fun m => w'.session.last_message_id < m.id)) :
    (fetch ap ap.token w').1 =
      (if drained = [] then "🕒 No new messages."
       else "💬 New messages:\n" ++
         String.intercalate "\n" (drained.map formatMessage)) ∧
    List.Pairwise (fun a b => a.id < b.id) drained ∧
    drained =
      w.store.messages.filter (fun m => w.session.last_message_id < m.id) ++
        postedMessages u ts w.store.nextId w.store.nextTime := by
  have hpm := postMany_spec ap u ts w hu hrow hf
  rw [hpm] at hw'
  have hsess : w'.session = w.session := by rw [hw']
  have hfail : w'.failures = [] := by rw [hw']; exact hf
  have hrow' : selectUserRows w'.store u = [⟨u, true⟩] := by
    rw [hw']; exact hrow
  have hinv' : MsgInv w'.store := by
    rw [hw']; exact msgInv_posted w.store u ts hinv
  have husername : w'.session.username = some u := by rw [hsess]; exact hu
  have htake : takeFailure w' = (none, w') := by simp [takeFailure, hfail]
  have hsingle : selectSingleConnected w'.store u = some true := by
    simp [selectSingleConnected, hrow']
  have hsel : selectMessagesGt w'.store w'.session.last_message_id = drained := by
    rw [selectMessagesGt_eq_filter _ _ hinv'.1, hd]
  have hpair : List.Pairwise (fun a b => a.id < b.id) drained := by
    rw [hd]
    exact hinv'.1.filter _
  have hposted_all : (postedMessages u ts w.store.nextId w.store.nextTime).filter
      (fun m => w.session.last_message_id < m.id) =
      postedMessages u ts w.store.nextId w.store.nextTime := by
    apply List.filter_eq_self.mpr
    intro m hm
    have h := postedMessages_mem_id u ts w.store.nextId w.store.nextTime m hm
    simp only [decide_eq_true_eq]
    omega
  have hdrained_eq : drained =
      w.store.messages.filter (fun m => w.session.last_message_id < m.id) ++
        postedMessages u ts w.store.nextId w.store.nextTime := by
    rw [hd, hw']
    simp only [List.filter_append, hsess, hw']
    rw [hposted_all]
  refine ⟨?_, hpair, hdrained_eq⟩
  cases hd0 : drained with
  | nil =>
    rw [hd0] at hsel
    simp [fetch, verify_self, husername, htake, hsingle, hsel]
  | cons m rest =>
    rw [hd0] at hsel
    simp [fetch, verify_self, husername, htake, hsingle, hsel]

/-- C1 witness: one post then a drain on an initially empty feed. -/
theorem drain_after_posts_exact_witness :
    (fetch ⟨"s"⟩ "s"
        (postMany ⟨"s"⟩ ["hi"]
          ⟨⟨[], [⟨"alice", true⟩], 1, 0⟩, ⟨some "alice", 0⟩, []⟩)).1 =
      (if ([⟨1, "alice", "hi", 0⟩] : List Message) = [] then "🕒 No new messages."
       else "💬 New messages:\n" ++
         String.intercalate "\n"
           (([⟨1, "alice", "hi", 0⟩] : List Message).map formatMessage)) ∧
    List.Pairwise (fun a b => a.id < b.id)
      ([⟨1, "alice", "hi", 0⟩] : List Message) ∧
    ([⟨1, "alice", "hi", 0⟩] : List Message) =
      ([] : List Message).filter (fun m => 0 < m.id) ++
        postedMessages "alice" ["hi"] 1 0 :=
  drain_after_posts_exact ⟨"s"⟩ "alice" ["hi"]
    ⟨⟨[], [⟨"alice", true⟩], 1, 0⟩, ⟨some "alice", 0⟩, []⟩
    (postMany ⟨"s"⟩ ["hi"] ⟨⟨[], [⟨"alice", true⟩], 1, 0⟩, ⟨some "alice", 0⟩, []⟩)
    [⟨1, "alice", "hi", 0⟩]
    rfl rfl rfl ⟨List.Pairwise.nil, by simp⟩ (by decide) rfl (by decide)

/-- C6: calling drain twice in a row with no intervening post returns
"no new messages" the second time, because the first call advances the
cursor to the greatest id it returned. -/
theorem drain_twice_no_new_messages (ap : SimpleAuthProvider) (u : String)
    (w : World)
    (hu : w.session.username = some u)
    (hrow : selectUserRows w.store u = [⟨u, true⟩])
    (hf : w.failures = [])
    (hinv : MsgInv w.store) :
    (fetch ap ap.token (fetch ap ap.token w).2).1 = "🕒 No new messages." := by
  have htake : takeFailure w = (none, w) := by simp [takeFailure, hf]
  have hsingle : selectSingleConnected w.store u = some true := by
    simp [selectSingleConnected, hrow]
  have hsel := selectMessagesGt_eq_filter w.store w.session.last_message_id hinv.1
  cases hflt : w.store.messages.filter
      (fun m => w.session.last_message_id < m.id) with
  | nil =>
    rw [hflt] at hsel
    have h1 : fetch ap ap.token w = ("🕒 No new messages.", w) := by
      simp [fetch, verify_self, hu, htake, hsingle, hsel]
    rw [h1]
    simp [fetch, verify_self, hu, htake, hsingle, hsel]
  | cons m rest =>
    rw [hflt] at hsel
    have h1 : fetch ap ap.token w =
        ("💬 New messages:\n" ++
           String.intercalate "\n" ((m :: rest).map formatMessage),
         { w with session := { w.session with last_message_id :=
             ((m :: rest).getLast (List.cons_ne_nil m rest)).id } }) := by
      simp [fetch, verify_self, hu, htake, hsingle, hsel]
    have hpwflt : List.Pairwise (fun a b => a.id < b.id) (m :: rest) := by
      rw [← hflt]
      exact hinv.1.filter _
    have hLmem : (m :: rest).getLast (List.cons_ne_nil m rest) ∈ m :: rest :=
      List.getLast_mem _
    have hLflt : (m :: rest).getLast (List.cons_ne_nil m rest) ∈
        w.store.messages.filter (fun x => w.session.last_message_id < x.id) := by
      rw [hflt]; exact hLmem
    have hcurL : w.session.last_message_id <
        ((m :: rest).getLast (List.cons_ne_nil m rest)).id := by
      have := (List.mem_filter.mp hLflt).2
      simpa using this
    have hflt2 : w.store.messages.filter
        (fun x => ((m :: rest).getLast (List.cons_ne_nil m rest)).id < x.id) =
        [] := by
      apply List.filter_eq_nil_iff.mpr
      intro x hx
      simp only [decide_eq_true_eq]
      intro hLx
      have hxflt : x ∈ w.store.messages.filter
          (fun y => w.session.last_message_id < y.id) := by
        apply List.mem_filter.mpr
        refine ⟨hx, ?_⟩
        simp only [decide_eq_true_eq]
        omega
      rw [hflt] at hxflt
      have hle := pairwise_le_getLast (m :: rest) (List.cons_ne_nil m rest)
        hpwflt x hxflt
      omega
    rw [h1]
    simp [fetch, verify_self, hu, takeFailure, hf, hsingle, selectMessagesGt,
      hflt2, sortById]

/-- C6 witness: a backlog of one message, drained twice. -/
theorem drain_twice_no_new_messages_witness :
    (fetch ⟨"s"⟩ "s"
        (fetch ⟨"s"⟩ "s"
          ⟨⟨[⟨1, "alice", "hi", 0⟩], [⟨"alice", true⟩], 2, 1⟩,
           ⟨some "alice", 0⟩, []⟩).2).1 = "🕒 No new messages." :=
  drain_twice_no_new_messages ⟨"s"⟩ "alice"
    ⟨⟨[⟨1, "alice", "hi", 0⟩], [⟨"alice", true⟩], 2, 1⟩, ⟨some "alice", 0⟩, []⟩
    rfl rfl rfl ⟨by simp, by simp⟩

/-- C2 (amended): every store failure aborts the operation and is reported
to the caller, and `leave`, `post` and `drain` leave the Session exactly in
its prior state (`post` and `drain` never touch it at all). Two deviations
from the original claim: in `post` and `drain` a failure of the
connected-verification select is reported as the not-connected warning
rather than a formatted failure string, and in `join` the session's
username is overwritten with the new normalized username before the first
store call, so a failing `join` keeps `last_message_id` and the store
unchanged but does not restore the previous username. -/
theorem store_failure_reporting_and_session :
    (∀ (ap : SimpleAuthProvider) (u : String) (w : World) (e : StoreError)
        (rest : List (Option StoreError)),
      w.session.username = some u → w.failures = some e :: rest →
      disconnect ap ap.token w =
        ("❌ Error disconnecting '" ++ u ++ "': " ++ e.msg,
         { w with failures := rest })) ∧
    (∀ (ap : SimpleAuthProvider) (t tok : String) (w : World),
      ((send ap t tok w).2).session = w.session) ∧
    (∀ (ap : SimpleAuthProvider) (t u : String) (w : World) (e : StoreError)
        (rest : List (Option StoreError)),
      w.session.username = some u → w.failures = some e :: rest →
      send ap t ap.token w =
        ("⚠️ You are not connected. Use /connect first.",
         { w with failures := rest })) ∧
    (∀ (ap : SimpleAuthProvider) (t u : String) (w : World) (e : StoreError)
        (rest : List (Option StoreError)),
      w.session.username = some u →
      selectUserRows w.store u = [⟨u, true⟩] →
      w.failures = none :: some e :: rest →
      send ap t ap.token w =
        ("❌ Error sending message: " ++ e.msg, { w with failures := rest })) ∧
    (∀ (ap : SimpleAuthProvider) (u : String) (w : World) (e : StoreError)
        (rest : List (Option StoreError)),
      w.session.username = some u → w.failures = some e :: rest →
      fetch ap ap.token w =
        ("⚠️ You are not connected. Use /connect first.",
         { w with failures := rest })) ∧
    (∀ (ap : SimpleAuthProvider) (u : String) (w : World) (e : StoreError)
        (rest : List (Option StoreError)),
      w.session.username = some u →
      selectUserRows w.store u = [⟨u, true⟩] →
      w.failures = none :: some e :: rest →
      fetch ap ap.token w =
        ("❌ Error fetching messages: " ++ e.msg, { w with failures := rest })) ∧
    (∀ (ap : SimpleAuthProvider) (uname : String) (w : World) (e : StoreError)
        (rest : List (Option StoreError)),
      e.code ≠ "PGRST116" → w.failures = some e :: rest →
      connect ap uname ap.token w =
        ("❌ Error fetching user data for '" ++ normalizeUsername uname ++
           "': " ++ e.msg,
         { w with
           session := { w.session with
             username := some (normalizeUsername uname) }
           failures := rest })) ∧
    (∀ (ap : SimpleAuthProvider) (uname : String) (w : World) (e : StoreError)
        (rest : List (Option StoreError)),
      (selectUserRows w.store (normalizeUsername uname)).length > 0 →
      w.failures = none :: some e :: rest →
      connect ap uname ap.token w =
        ("❌ Error updating connection status for '" ++
           normalizeUsername uname ++ "': " ++ e.msg,
         { w with
           session := { w.session with
             username := some (normalizeUsername uname) }
           failures := rest })) ∧
    (∀ (ap : SimpleAuthProvider) (uname : String) (w : World) (e : StoreError)
        (rest : List (Option StoreError)),
      selectUserRows w.store (normalizeUsername uname) = [] →
      w.failures = none :: some e :: rest →
      connect ap uname ap.token w =
        ("❌ Error connecting as new user '" ++ normalizeUsername uname ++
           "': " ++ e.msg,
         { w with
           session := { w.session with
             username := some (normalizeUsername uname) }
           failures := rest })) := by
  refine ⟨?_, ?_, ?_, ?_, ?_, ?_, ?_, ?_, ?_⟩
  · intro ap u w e rest hu hfl
    simp [disconnect, verify_self, hu, takeFailure, hfl]
  · intro ap t tok w
    cases hv : ap.verify tok with
    | none => simp [send, hv]
    | some r =>
      cases hus : w.session.username with
      | none => simp [send, hv, hus]
      | some u =>
        rcases hfl : w.failures with _ | ⟨f, rest⟩
        · cases hsc : selectSingleConnected w.store u with
          | none => simp [send, hv, hus, takeFailure, hfl, hsc]
          | some b =>
            cases b
            · simp [send, hv, hus, takeFailure, hfl, hsc]
            · simp [send, hv, hus, takeFailure, hfl, hsc]
        · cases f with
          | some e => simp [send, hv, hus, takeFailure, hfl]
          | none =>
            cases hsc : selectSingleConnected w.store u with
            | none => simp [send, hv, hus, takeFailure, hfl, hsc]
            | some b =>
              cases b
              · simp [send, hv, hus, takeFailure, hfl, hsc]
              · rcases rest with _ | ⟨g, rest2⟩
                · simp [send, hv, hus, takeFailure, hfl, hsc]
                · cases g <;> simp [send, hv, hus, takeFailure, hfl, hsc]
  · intro ap t u w e rest hu hfl
    simp [send, verify_self, hu, takeFailure, hfl]
  · intro ap t u w e rest hu hrow hfl
    have hsingle : selectSingleConnected w.store u = some true := by
      simp [selectSingleConnected, hrow]
    simp [send, verify_self, hu, takeFailure, hfl, hsingle]
  · intro ap u w e rest hu hfl
    simp [fetch, verify_self, hu, takeFailure, hfl]
  · intro ap u w e rest hu hrow hfl
    have hsingle : selectSingleConnected w.store u = some true := by
      simp [selectSingleConnected, hrow]
    simp [fetch, verify_self, hu, takeFailure, hfl, hsingle]
  · intro ap uname w e rest hc hfl
    simp [connect, verify_self, takeFailure, hfl, hc]
  · intro ap uname w e rest hlen hfl
    simp [connect, verify_self, takeFailure, hfl, connectUpsert, hlen]
  · intro ap uname w e rest hnil hfl
    simp [connect, verify_self, takeFailure, hfl, connectUpsert, hnil]

/-- C2 amended witness: a failing disconnect and a failing join at concrete
worlds. -/
theorem store_failure_reporting_witness :
    disconnect ⟨"s"⟩ "s"
        ⟨⟨[], [⟨"alice", true⟩], 1, 0⟩, ⟨some "alice", 3⟩,
         [some ⟨"500", "boom"⟩]⟩ =
      ("❌ Error disconnecting 'alice': boom",
       ⟨⟨[], [⟨"alice", true⟩], 1, 0⟩, ⟨some "alice", 3⟩, []⟩) ∧
    connect ⟨"s"⟩ "Bob" "s"
        ⟨⟨[], [⟨"alice", true⟩], 1, 0⟩, ⟨some "alice", 3⟩,
         [some ⟨"500", "boom"⟩]⟩ =
      ("❌ Error fetching user data for '" ++ normalizeUsername "Bob" ++
         "': boom",
       ⟨⟨[], [⟨"alice", true⟩], 1, 0⟩,
        ⟨some (normalizeUsername "Bob"), 3⟩, []⟩) :=
  ⟨store_failure_reporting_and_session.1 ⟨"s"⟩ "alice"
      ⟨⟨[], [⟨"alice", true⟩], 1, 0⟩, ⟨some "alice", 3⟩,
       [some ⟨"500", "boom"⟩]⟩ ⟨"500", "boom"⟩ [] rfl rfl,
   (store_failure_reporting_and_session.2.2.2.2.2.2).1 ⟨"s"⟩ "Bob"
      ⟨⟨[], [⟨"alice", true⟩], 1, 0⟩, ⟨some "alice", 3⟩,
       [some ⟨"500", "boom"⟩]⟩ ⟨"500", "boom"⟩ [] (by decide) rfl⟩

/-- C9 witness: alice stays connected while bob joins. -/
theorem join_other_preserves_user_row_witness :
    selectUserRows ((connect ⟨"s"⟩ "Bob" "s"
        ⟨⟨[], [⟨"alice", true⟩], 1, 0⟩, ⟨some "alice", 0⟩, []⟩).2).store "alice" =
      selectUserRows (⟨[], [⟨"alice", true⟩], 1, 0⟩ : Store) "alice" :=
  join_other_preserves_user_row ⟨"s"⟩ "Bob" "s" "alice"
    ⟨⟨[], [⟨"alice", true⟩], 1, 0⟩, ⟨some "alice", 0⟩, []⟩ rfl (by decide)

end Puchchat
